import Mathlib

/-
Verification of the tool-dispatch layer of the Alchemy MCP server
(src/server.ts) against its specification.

The embedding models:
  * JSON-like argument values (the untyped argument bags the transport
    delivers; over JSON-RPC a property holding `undefined` is not
    representable, so "field === undefined" is modelled as absence);
  * the per-operation runtime validators (isValid*Params in server.ts);
  * the per-operation backend calls exactly as made (which fields of the
    validated bag each handler actually passes to the alchemy-sdk client);
  * the subscription registry: the instance map `this.activeSubscriptions`
    written by handleSubscribe/handleUnsubscribe, the module-level map
    `activeSubscriptions` (server.ts line 46) iterated by the SIGINT
    handler, and the backend websocket subscription state created by
    `alchemy.ws.on` and cancelled by `subscription.unsubscribe()`;
  * the CallToolRequestSchema handler: the missing-arguments guard, the
    name switch with its "Unknown tool" default, and the top-level catch
    that rewraps every thrown error as
    McpError(ErrorCode.InternalError, "Tool error: " ++ message).

The random subscription id (Math.random().toString(36).substring(7)) is a
nondeterministic input and is passed in as an explicit `genId` parameter.
The backend client is an oracle `Backend` mapping each concrete call to a
resolved value or a rejection message.  The JSON serialization of the
reply envelope (JSON.stringify) is not modelled; results are kept as
structured values.  The message of a MicrosoftMcpError is modelled as the
string passed to its constructor.
-/

namespace AlchemyMcp

/-- JSON-like values carried in argument bags and results. -/
inductive JValue where
  | jstr (s : String)
  | jnum (n : Int)
  | jbool (b : Bool)
  | jnull
  | jarr (xs : List JValue)
  | jobj (fields : List (String × JValue))

/-- An argument bag: the untyped key-value object received per request. -/
abbrev ArgBag := List (String × JValue)

/-- Property access `args.k` (first binding wins; JS objects have unique keys). -/
def lookupField (args : ArgBag) (k : String) : Option JValue :=
  (args.find? (fun p => p.1 == k)).map Prod.snd

/-- `typeof args.k === "string"` (field required). -/
def isStr : Option JValue → Bool
  | some (.jstr _) => true
  | _ => false

/-- `args.k === undefined || typeof args.k === "string"`. -/
def isOptStr : Option JValue → Bool
  | none => true
  | some (.jstr _) => true
  | _ => false

/-- `args.k === undefined || typeof args.k === "number"`. -/
def isOptNum : Option JValue → Bool
  | none => true
  | some (.jnum _) => true
  | _ => false

/-- `args.k === undefined || typeof args.k === "boolean"`. -/
def isOptBool : Option JValue → Bool
  | none => true
  | some (.jbool _) => true
  | _ => false

/-- `args.k === undefined || Array.isArray(args.k)`. -/
def isOptArr : Option JValue → Bool
  | none => true
  | some (.jarr _) => true
  | _ => false

/-- `args.k === undefined || typeof args.k === "string" || typeof args.k === "number"`. -/
def isOptStrOrNum : Option JValue → Bool
  | none => true
  | some (.jstr _) => true
  | some (.jnum _) => true
  | _ => false

/-- `args.k !== undefined`. -/
def isPresent (v : Option JValue) : Bool := v.isSome

/-- isValidGetNftsForOwnerParams (server.ts lines 113-126). -/
def isValidGetNftsForOwnerParams (args : ArgBag) : Bool :=
  isStr (lookupField args "owner") &&
  isOptStr (lookupField args "pageKey") &&
  isOptNum (lookupField args "pageSize") &&
  isOptArr (lookupField args "contractAddresses") &&
  isOptBool (lookupField args "withMetadata")

/-- isValidGetNftMetadataParams (server.ts lines 128-139). -/
def isValidGetNftMetadataParams (args : ArgBag) : Bool :=
  isStr (lookupField args "contractAddress") &&
  isStr (lookupField args "tokenId") &&
  isOptStr (lookupField args "tokenType") &&
  isOptBool (lookupField args "refreshCache")

/-- isValidGetTokenBalancesParams (server.ts lines 141-150); defined in the
source but never called from the dispatch switch. -/
def isValidGetTokenBalancesParams (args : ArgBag) : Bool :=
  isStr (lookupField args "address") &&
  isOptArr (lookupField args "tokenAddresses")

/-- isValidGetAssetTransfersParams (server.ts lines 152-171); defined in the
source but never called from the dispatch switch. -/
def isValidGetAssetTransfersParams (args : ArgBag) : Bool :=
  isOptStr (lookupField args "fromBlock") &&
  isOptStr (lookupField args "toBlock") &&
  isOptStr (lookupField args "fromAddress") &&
  isOptStr (lookupField args "toAddress") &&
  isOptArr (lookupField args "category") &&
  isOptArr (lookupField args "contractAddresses") &&
  isOptNum (lookupField args "maxCount") &&
  isOptBool (lookupField args "excludeZeroValue") &&
  isOptStr (lookupField args "pageKey") &&
  isOptBool (lookupField args "withMetadata")

/-- isValidGetNftSalesParams (server.ts lines 173-187). -/
def isValidGetNftSalesParams (args : ArgBag) : Bool :=
  isOptStr (lookupField args "contractAddress") &&
  isOptStr (lookupField args "tokenId") &&
  isOptNum (lookupField args "fromBlock") &&
  isOptNum (lookupField args "toBlock") &&
  isOptStr (lookupField args "order") &&
  isOptStr (lookupField args "marketplace") &&
  isOptStr (lookupField args "pageKey") &&
  isOptNum (lookupField args "pageSize")

/-- isValidGetContractsForOwnerParams (server.ts lines 189-201). -/
def isValidGetContractsForOwnerParams (args : ArgBag) : Bool :=
  isStr (lookupField args "owner") &&
  isOptStr (lookupField args "pageKey") &&
  isOptNum (lookupField args "pageSize") &&
  isOptArr (lookupField args "includeFilters") &&
  isOptArr (lookupField args "excludeFilters")

/-- isValidGetFloorPriceParams (server.ts lines 203-209). -/
def isValidGetFloorPriceParams (args : ArgBag) : Bool :=
  isStr (lookupField args "contractAddress")

/-- isValidGetOwnersForNftParams (server.ts lines 211-222). -/
def isValidGetOwnersForNftParams (args : ArgBag) : Bool :=
  isStr (lookupField args "contractAddress") &&
  isStr (lookupField args "tokenId") &&
  isOptStr (lookupField args "pageKey") &&
  isOptNum (lookupField args "pageSize")

/-- isValidGetTransfersForContractParams (server.ts lines 224-237). -/
def isValidGetTransfersForContractParams (args : ArgBag) : Bool :=
  isStr (lookupField args "contractAddress") &&
  isOptStr (lookupField args "pageKey") &&
  isOptNum (lookupField args "fromBlock") &&
  isOptNum (lookupField args "toBlock") &&
  isOptStr (lookupField args "order") &&
  isOptStr (lookupField args "tokenType")

/-- isValidGetTransfersForOwnerParams (server.ts lines 239-254). -/
def isValidGetTransfersForOwnerParams (args : ArgBag) : Bool :=
  isStr (lookupField args "owner") &&
  isOptStr (lookupField args "pageKey") &&
  isOptNum (lookupField args "fromBlock") &&
  isOptNum (lookupField args "toBlock") &&
  isOptStr (lookupField args "order") &&
  isOptStr (lookupField args "tokenType") &&
  isOptArr (lookupField args "contractAddresses")

/-- isValidGetTransactionReceiptsParams (server.ts lines 256-268). -/
def isValidGetTransactionReceiptsParams (args : ArgBag) : Bool :=
  (isPresent (lookupField args "blockHash") ||
   isPresent (lookupField args "blockNumber")) &&
  isOptStr (lookupField args "blockHash") &&
  isOptStrOrNum (lookupField args "blockNumber")

/-- isValidGetTokenMetadataParams (server.ts lines 270-278). -/
def isValidGetTokenMetadataParams (args : ArgBag) : Bool :=
  isStr (lookupField args "contractAddress")

/-- isValidGetTokensForOwnerParams (server.ts lines 280-292). -/
def isValidGetTokensForOwnerParams (args : ArgBag) : Bool :=
  isStr (lookupField args "owner") &&
  isOptStr (lookupField args "pageKey") &&
  isOptNum (lookupField args "pageSize") &&
  isOptArr (lookupField args "contractAddresses")

/-- isValidGetNftsForContractParams (server.ts lines 294-307). -/
def isValidGetNftsForContractParams (args : ArgBag) : Bool :=
  isStr (lookupField args "contractAddress") &&
  isOptStr (lookupField args "pageKey") &&
  isOptNum (lookupField args "pageSize") &&
  isOptNum (lookupField args "tokenUriTimeoutInMs") &&
  isOptBool (lookupField args "withMetadata")

/-- isValidGetBlockWithTransactionsParams (server.ts lines 309-321). -/
def isValidGetBlockWithTransactionsParams (args : ArgBag) : Bool :=
  (isPresent (lookupField args "blockNumber") ||
   isPresent (lookupField args "blockHash")) &&
  isOptStrOrNum (lookupField args "blockNumber") &&
  isOptStr (lookupField args "blockHash")

/-- isValidGetTransactionParams (server.ts lines 323-329). -/
def isValidGetTransactionParams (args : ArgBag) : Bool :=
  isStr (lookupField args "hash")

/-- isValidResolveEnsParams (server.ts lines 331-340).  Note: the validator
accepts `blockTag` as string OR number, while the advertised inputSchema
for resolve_ens declares blockTag as string only. -/
def isValidResolveEnsParams (args : ArgBag) : Bool :=
  isStr (lookupField args "name") &&
  isOptStrOrNum (lookupField args "blockTag")

/-- isValidLookupAddressParams (server.ts lines 342-348). -/
def isValidLookupAddressParams (args : ArgBag) : Bool :=
  isStr (lookupField args "address")

/-- isValidEstimateGasPriceParams (server.ts lines 350-358). -/
def isValidEstimateGasPriceParams (args : ArgBag) : Bool :=
  isOptBool (lookupField args "maxFeePerGas")

/-- isValidSubscribeParams (server.ts lines 360-368). -/
def isValidSubscribeParams (args : ArgBag) : Bool :=
  isStr (lookupField args "type") &&
  isOptStr (lookupField args "address") &&
  isOptArr (lookupField args "topics")

/-- isValidUnsubscribeParams (server.ts lines 370-376). -/
def isValidUnsubscribeParams (args : ArgBag) : Bool :=
  isStr (lookupField args "subscriptionId")

/-- The two MCP error codes the source actually constructs:
ErrorCode.InvalidParams and ErrorCode.InternalError. -/
inductive ErrorCode where
  | invalidParams
  | internalError
deriving DecidableEq, Repr

/-- A MicrosoftMcpError as constructed in the source: an error code plus the
message string passed to the constructor. -/
structure McpError where
  code : ErrorCode
  message : String
deriving DecidableEq, Repr

/-- An exception escaping a handler: either a MicrosoftMcpError thrown by the
code itself, or a raw rejection (e.g. an awaited backend promise rejecting)
carrying a message string. -/
inductive HandlerErr where
  | mcp (e : McpError)
  | raw (msg : String)

/-- `error.message` as read by the top-level catch block. -/
def HandlerErr.message : HandlerErr → String
  | .mcp e => e.message
  | .raw m => m

/-- The exact backend (alchemy-sdk) invocations the handlers make, with the
arguments each handler actually passes (server.ts lines 1133-1348).  Where a
handler passes the whole validated params object, the bag is carried. -/
inductive BackendCall where
  | nftGetNftsForOwner (owner : String) (params : ArgBag)
  | nftGetNftMetadata (contractAddress tokenId : String)
  | nftGetNftSales (params : ArgBag)
  | nftGetContractsForOwner (owner : String)
  | nftGetFloorPrice (contractAddress : String)
  | nftGetOwnersForNft (contractAddress tokenId : String)
  | nftGetTransfersForContract (contractAddress : String) (params : ArgBag)
  | nftGetTransfersForOwner (owner : String)
  | coreGetTransactionReceipts (params : ArgBag)
  | coreGetTokenMetadata (contractAddress : String)
  | coreGetTokensForOwner (owner : String)
  | nftGetNftsForContract (contractAddress : String) (params : ArgBag)
  | coreGetBlockWithTransactions (blockTag : JValue)
  | coreGetTransaction (hash : String)
  | coreResolveName (name : String)
  | coreLookupAddress (address : String)
  | coreGetGasPrice

/-- The backend client as an oracle: each call either resolves with a value
or rejects with an error carrying a message string. -/
abbrev Backend := BackendCall → Except String JValue

/-- The first argument of `alchemy.ws.on` in the three subscribe cases
(server.ts lines 1363-1385): the "block" event, the filtered-log object, or
the "pending" event. -/
inductive WsTopic where
  | block
  | filtered (addresses : Option (List String)) (topics : Option JValue)
  | pending

/-- The backend websocket subscription state: the live subscriptions (token
paired with the event they listen on) and a counter for fresh tokens. -/
structure WsState where
  live : List (Nat × WsTopic)
  next : Nat

/-- `alchemy.ws.on(topic, listener)`: creates a live backend subscription and
returns its handle token. -/
def WsState.on (ws : WsState) (topic : WsTopic) : Nat × WsState :=
  (ws.next, ⟨(ws.next, topic) :: ws.live, ws.next + 1⟩)

/-- Remove the first live subscription with the given token. -/
def eraseFirstTok : List (Nat × WsTopic) → Nat → List (Nat × WsTopic)
  | [], _ => []
  | (t, w) :: rest, tok => if t = tok then rest else (t, w) :: eraseFirstTok rest tok

/-- `subscription.unsubscribe()`: cancels that backend subscription. -/
def WsState.unsubscribe (ws : WsState) (tok : Nat) : WsState :=
  ⟨eraseFirstTok ws.live tok, ws.next⟩

/-- The process state visible to the dispatcher: the instance-field registry
`this.activeSubscriptions` (written by handleSubscribe / handleUnsubscribe),
the module-level `activeSubscriptions` map of server.ts line 46 (iterated by
the SIGINT handler, never written anywhere), and the backend websocket
state.  Registry entries map the generated id to the backend handle token. -/
structure ServerState where
  instanceSubs : List (String × Nat)
  moduleSubs : List (String × Nat)
  ws : WsState

/-- JS `Map.prototype.set`: replace the value if the key is present (keeping
its position), otherwise append the new entry. -/
def mapSet : List (String × Nat) → String → Nat → List (String × Nat)
  | [], k, v => [(k, v)]
  | (k', v') :: rest, k, v =>
      if k' = k then (k, v) :: rest else (k', v') :: mapSet rest k v

/-- JS `Map.prototype.get`. -/
def mapGet (m : List (String × Nat)) (k : String) : Option Nat :=
  (m.find? (fun p => p.1 == k)).map Prod.snd

/-- JS `Map.prototype.delete` (keys are unique in a JS Map, so removing the
first binding is removal of the binding). -/
def mapDelete : List (String × Nat) → String → List (String × Nat)
  | [], _ => []
  | (k', v') :: rest, k =>
      if k' = k then rest else (k', v') :: mapDelete rest k

/-- Extract the string a validator has guaranteed (the TS code reads the
field after the type-guard cast; the default is unreachable under the
guard). -/
def asStr : Option JValue → String
  | some (.jstr s) => s
  | _ => ""

/-- JS truthiness of a property, as used by `params.blockNumber ||
params.blockHash || "latest"` and `params.address ? [params.address] :
undefined`. -/
def jsTruthy : Option JValue → Bool
  | none => false
  | some (.jstr s) => !(s == "")
  | some (.jnum n) => !(n == 0)
  | some (.jbool b) => b
  | some .jnull => false
  | some (.jarr _) => true
  | some (.jobj _) => true

/-- Run one backend call and record it; an awaited rejection escapes the
handler as a raw (non-McpError) exception carrying the backend's message. -/
def runBackend (backend : Backend) (call : BackendCall) :
    Except HandlerErr JValue × List BackendCall :=
  match backend call with
  | .ok v => (.ok v, [call])
  | .error m => (.error (.raw m), [call])

/-- `throw new MicrosoftMcpError(ErrorCode.InvalidParams, msg)` from
validateAndCastParams, before any backend call. -/
def invalidP (msg : String) : Except HandlerErr JValue × List BackendCall :=
  (.error (.mcp ⟨.invalidParams, msg⟩), [])

/-- handleGetNftsForOwner (server.ts 1133-1143):
`alchemy.nft.getNftsForOwner(params.owner, params)`. -/
def handleGetNftsForOwner (backend : Backend) (args : ArgBag) :
    Except HandlerErr JValue × List BackendCall :=
  if isValidGetNftsForOwnerParams args then
    runBackend backend (.nftGetNftsForOwner (asStr (lookupField args "owner")) args)
  else invalidP "Invalid NFTs for owner parameters"

/-- handleGetNftMetadata (server.ts 1145-1158):
`alchemy.nft.getNftMetadata(params.contractAddress, params.tokenId)`
(tokenType and refreshCache are not passed on). -/
def handleGetNftMetadata (backend : Backend) (args : ArgBag) :
    Except HandlerErr JValue × List BackendCall :=
  if isValidGetNftMetadataParams args then
    runBackend backend
      (.nftGetNftMetadata (asStr (lookupField args "contractAddress"))
        (asStr (lookupField args "tokenId")))
  else invalidP "Invalid NFT metadata parameters"

/-- handleGetNftSales (server.ts 1160-1170): `alchemy.nft.getNftSales(params)`. -/
def handleGetNftSales (backend : Backend) (args : ArgBag) :
    Except HandlerErr JValue × List BackendCall :=
  if isValidGetNftSalesParams args then
    runBackend backend (.nftGetNftSales args)
  else invalidP "Invalid NFT sales parameters"

/-- handleGetContractsForOwner (server.ts 1172-1182):
`alchemy.nft.getContractsForOwner(params.owner)` — pageKey, pageSize,
includeFilters and excludeFilters are not passed on. -/
def handleGetContractsForOwner (backend : Backend) (args : ArgBag) :
    Except HandlerErr JValue × List BackendCall :=
  if isValidGetContractsForOwnerParams args then
    runBackend backend (.nftGetContractsForOwner (asStr (lookupField args "owner")))
  else invalidP "Invalid contracts for owner parameters"

/-- handleGetFloorPrice (server.ts 1184-1194):
`alchemy.nft.getFloorPrice(params.contractAddress)`. -/
def handleGetFloorPrice (backend : Backend) (args : ArgBag) :
    Except HandlerErr JValue × List BackendCall :=
  if isValidGetFloorPriceParams args then
    runBackend backend (.nftGetFloorPrice (asStr (lookupField args "contractAddress")))
  else invalidP "Invalid floor price parameters"

/-- handleGetOwnersForNft (server.ts 1196-1209):
`alchemy.nft.getOwnersForNft(params.contractAddress, params.tokenId)`. -/
def handleGetOwnersForNft (backend : Backend) (args : ArgBag) :
    Except HandlerErr JValue × List BackendCall :=
  if isValidGetOwnersForNftParams args then
    runBackend backend
      (.nftGetOwnersForNft (asStr (lookupField args "contractAddress"))
        (asStr (lookupField args "tokenId")))
  else invalidP "Invalid owners for NFT parameters"

/-- handleGetTransfersForContract (server.ts 1211-1224):
`alchemy.nft.getTransfersForContract(params.contractAddress, params)`. -/
def handleGetTransfersForContract (backend : Backend) (args : ArgBag) :
    Except HandlerErr JValue × List BackendCall :=
  if isValidGetTransfersForContractParams args then
    runBackend backend
      (.nftGetTransfersForContract (asStr (lookupField args "contractAddress")) args)
  else invalidP "Invalid transfers for contract parameters"

/-- handleGetTransfersForOwner (server.ts 1226-1236):
`alchemy.nft.getTransfersForOwner(params.owner)` — the option fields are not
passed on. -/
def handleGetTransfersForOwner (backend : Backend) (args : ArgBag) :
    Except HandlerErr JValue × List BackendCall :=
  if isValidGetTransfersForOwnerParams args then
    runBackend backend (.nftGetTransfersForOwner (asStr (lookupField args "owner")))
  else invalidP "Invalid transfers for owner parameters"

/-- handleGetTransactionReceipts (server.ts 1238-1248):
`alchemy.core.getTransactionReceipts(params)`. -/
def handleGetTransactionReceipts (backend : Backend) (args : ArgBag) :
    Except HandlerErr JValue × List BackendCall :=
  if isValidGetTransactionReceiptsParams args then
    runBackend backend (.coreGetTransactionReceipts args)
  else invalidP "Invalid transaction receipts parameters"

/-- handleGetTokenMetadata (server.ts 1250-1260):
`alchemy.core.getTokenMetadata(params.contractAddress)`. -/
def handleGetTokenMetadata (backend : Backend) (args : ArgBag) :
    Except HandlerErr JValue × List BackendCall :=
  if isValidGetTokenMetadataParams args then
    runBackend backend (.coreGetTokenMetadata (asStr (lookupField args "contractAddress")))
  else invalidP "Invalid token metadata parameters"

/-- handleGetTokensForOwner (server.ts 1262-1272):
`alchemy.core.getTokensForOwner(params.owner)` — the option fields are not
passed on. -/
def handleGetTokensForOwner (backend : Backend) (args : ArgBag) :
    Except HandlerErr JValue × List BackendCall :=
  if isValidGetTokensForOwnerParams args then
    runBackend backend (.coreGetTokensForOwner (asStr (lookupField args "owner")))
  else invalidP "Invalid tokens for owner parameters"

/-- handleGetNftsForContract (server.ts 1274-1287):
`alchemy.nft.getNftsForContract(params.contractAddress, params)`. -/
def handleGetNftsForContract (backend : Backend) (args : ArgBag) :
    Except HandlerErr JValue × List BackendCall :=
  if isValidGetNftsForContractParams args then
    runBackend backend
      (.nftGetNftsForContract (asStr (lookupField args "contractAddress")) args)
  else invalidP "Invalid NFTs for contract parameters"

/-- handleGetBlockWithTransactions (server.ts 1289-1300): the block tag is
`params.blockNumber || params.blockHash || "latest"` with JS truthiness. -/
def handleGetBlockWithTransactions (backend : Backend) (args : ArgBag) :
    Except HandlerErr JValue × List BackendCall :=
  if isValidGetBlockWithTransactionsParams args then
    let bn := lookupField args "blockNumber"
    let bh := lookupField args "blockHash"
    let blockTag : JValue :=
      if jsTruthy bn then bn.getD .jnull
      else if jsTruthy bh then bh.getD .jnull
      else .jstr "latest"
    runBackend backend (.coreGetBlockWithTransactions blockTag)
  else invalidP "Invalid block with transactions parameters"

/-- handleGetTransaction (server.ts 1302-1312):
`alchemy.core.getTransaction(params.hash)`. -/
def handleGetTransaction (backend : Backend) (args : ArgBag) :
    Except HandlerErr JValue × List BackendCall :=
  if isValidGetTransactionParams args then
    runBackend backend (.coreGetTransaction (asStr (lookupField args "hash")))
  else invalidP "Invalid transaction parameters"

/-- handleResolveEns (server.ts 1314-1324):
`alchemy.core.resolveName(params.name)` — blockTag is not passed on. -/
def handleResolveEns (backend : Backend) (args : ArgBag) :
    Except HandlerErr JValue × List BackendCall :=
  if isValidResolveEnsParams args then
    runBackend backend (.coreResolveName (asStr (lookupField args "name")))
  else invalidP "Invalid ENS parameters"

/-- handleLookupAddress (server.ts 1326-1336):
`alchemy.core.lookupAddress(params.address)`. -/
def handleLookupAddress (backend : Backend) (args : ArgBag) :
    Except HandlerErr JValue × List BackendCall :=
  if isValidLookupAddressParams args then
    runBackend backend (.coreLookupAddress (asStr (lookupField args "address")))
  else invalidP "Invalid lookup address parameters"

/-- handleEstimateGasPrice (server.ts 1338-1348):
`alchemy.core.getGasPrice()` — maxFeePerGas is not passed on. -/
def handleEstimateGasPrice (backend : Backend) (args : ArgBag) :
    Except HandlerErr JValue × List BackendCall :=
  if isValidEstimateGasPriceParams args then
    runBackend backend .coreGetGasPrice
  else invalidP "Invalid gas price parameters"

/-- The addresses filter of the "logs" subscribe case:
`params.address ? [params.address] : undefined` (JS truthiness). -/
def logsAddresses (args : ArgBag) : Option (List String) :=
  match lookupField args "address" with
  | some (.jstr a) => if a == "" then none else some [a]
  | _ => none

/-- The switch on `params.type` in handleSubscribe (server.ts 1363-1391):
the event each recognised type subscribes to, none for any other type. -/
def subTopicOf (args : ArgBag) (t : String) : Option WsTopic :=
  if t = "newHeads" then some .block
  else if t = "logs" then
    some (.filtered (logsAddresses args) (lookupField args "topics"))
  else if t = "pendingTransactions" then some .pending
  else none

/-- handleSubscribe (server.ts 1350-1395).  `genId` is the nondeterministic
id from Math.random().toString(36).substring(7).  On a recognised type the
handler creates the backend subscription, stores the handle under `genId`
in the instance registry with Map.set, and returns the id; otherwise it
throws before touching the registry. -/
def handleSubscribe (genId : String) (args : ArgBag) (st : ServerState) :
    Except HandlerErr JValue × ServerState :=
  if isValidSubscribeParams args then
    match subTopicOf args (asStr (lookupField args "type")) with
    | some topic =>
        (.ok (.jobj [("subscriptionId", .jstr genId)]),
         { st with ws := (st.ws.on topic).2,
                   instanceSubs := mapSet st.instanceSubs genId (st.ws.on topic).1 })
    | none =>
        (.error (.mcp ⟨.invalidParams,
          "Unknown subscription type: " ++ asStr (lookupField args "type")⟩), st)
  else (.error (.mcp ⟨.invalidParams, "Invalid subscribe parameters"⟩), st)

/-- handleUnsubscribe (server.ts 1397-1418): look up the id in the instance
registry; missing id throws InvalidParams; found id invokes the stored
cancel action, deletes the entry and returns a success acknowledgement. -/
def handleUnsubscribe (args : ArgBag) (st : ServerState) :
    Except HandlerErr JValue × ServerState :=
  if isValidUnsubscribeParams args then
    match mapGet st.instanceSubs (asStr (lookupField args "subscriptionId")) with
    | none =>
        (.error (.mcp ⟨.invalidParams,
          "Subscription not found: " ++ asStr (lookupField args "subscriptionId")⟩), st)
    | some tok =>
        (.ok (.jobj [("success", .jbool true)]),
         { st with ws := st.ws.unsubscribe tok,
                   instanceSubs :=
                     mapDelete st.instanceSubs (asStr (lookupField args "subscriptionId")) })
  else (.error (.mcp ⟨.invalidParams, "Invalid unsubscribe parameters"⟩), st)

/-- Lift a stateless handler result into the dispatch result shape. -/
def stateless (p : Except HandlerErr JValue × List BackendCall) (st : ServerState) :
    Except HandlerErr JValue × ServerState × List BackendCall :=
  (p.1, st, p.2)

/-- The switch on `request.params.name` (server.ts 1011-1101).  Note that the
advertised tools get_token_balances, get_asset_transfers and
get_block_number have no case and fall to the default, which throws
MicrosoftMcpError(ErrorCode.InvalidParams, "Unknown tool: " ++ name). -/
def dispatchSwitch (backend : Backend) (genId : String) (name : String)
    (args : ArgBag) (st : ServerState) :
    Except HandlerErr JValue × ServerState × List BackendCall :=
  if name = "get_nfts_for_owner" then stateless (handleGetNftsForOwner backend args) st
  else if name = "get_nft_metadata" then stateless (handleGetNftMetadata backend args) st
  else if name = "get_nft_sales" then stateless (handleGetNftSales backend args) st
  else if name = "get_contracts_for_owner" then
    stateless (handleGetContractsForOwner backend args) st
  else if name = "get_floor_price" then stateless (handleGetFloorPrice backend args) st
  else if name = "get_owners_for_nft" then stateless (handleGetOwnersForNft backend args) st
  else if name = "get_transfers_for_contract" then
    stateless (handleGetTransfersForContract backend args) st
  else if name = "get_transfers_for_owner" then
    stateless (handleGetTransfersForOwner backend args) st
  else if name = "get_transaction_receipts" then
    stateless (handleGetTransactionReceipts backend args) st
  else if name = "get_token_metadata" then stateless (handleGetTokenMetadata backend args) st
  else if name = "get_tokens_for_owner" then
    stateless (handleGetTokensForOwner backend args) st
  else if name = "get_nfts_for_contract" then
    stateless (handleGetNftsForContract backend args) st
  else if name = "get_block_with_transactions" then
    stateless (handleGetBlockWithTransactions backend args) st
  else if name = "get_transaction" then stateless (handleGetTransaction backend args) st
  else if name = "resolve_ens" then stateless (handleResolveEns backend args) st
  else if name = "lookup_address" then stateless (handleLookupAddress backend args) st
  else if name = "estimate_gas_price" then
    stateless (handleEstimateGasPrice backend args) st
  else if name = "subscribe" then
    let p := handleSubscribe genId args st
    (p.1, p.2, [])
  else if name = "unsubscribe" then
    let p := handleUnsubscribe args st
    (p.1, p.2, [])
  else (.error (.mcp ⟨.invalidParams, "Unknown tool: " ++ name⟩), st, [])

/-- The body of the try block of the CallToolRequestSchema handler
(server.ts 1002-1110): the missing-arguments guard, then the name switch. -/
def dispatchTry (backend : Backend) (genId : String) (name : String)
    (args? : Option ArgBag) (st : ServerState) :
    Except HandlerErr JValue × ServerState × List BackendCall :=
  match args? with
  | none => (.error (.mcp ⟨.invalidParams, "Missing arguments"⟩), st, [])
  | some args => dispatchSwitch backend genId name args st

/-- The full CallToolRequestSchema handler (server.ts 999-1119): the try
block, with every thrown error caught and rewrapped as
MicrosoftMcpError(ErrorCode.InternalError, "Tool error: " ++ error.message).
The serialization of a successful result into the reply envelope is not
modelled; the structured result is returned as is. -/
def callTool (backend : Backend) (genId : String) (name : String)
    (args? : Option ArgBag) (st : ServerState) :
    Except McpError JValue × ServerState × List BackendCall :=
  match dispatchTry backend genId name args? st with
  | (.ok v, st', tr) => (.ok v, st', tr)
  | (.error e, st', tr) =>
      (.error ⟨.internalError, "Tool error: " ++ e.message⟩, st', tr)

/-- The SIGINT handler (server.ts 405-418): iterate the MODULE-LEVEL
`activeSubscriptions` map (server.ts line 46) and call unsubscribe on each
stored handle (best-effort), then exit 0.  The instance registry written by
handleSubscribe is not touched. -/
def sigintCleanup (st : ServerState) : ServerState :=
  { st with ws := st.moduleSubs.foldl (fun ws p => ws.unsubscribe p.2) st.ws }

/-- The declared primitive/array shape of a schema property. -/
inductive FieldType where
  | tStr
  | tNum
  | tBool
  | tArr
deriving DecidableEq, Repr

/-- An Operation Descriptor as rendered by the ListToolsRequestSchema
handler: name, the `required` list of the inputSchema (empty where the
source instead uses a oneOf of alternatives, which a plain required set
cannot express), and the declared type of each property (enum and item
constraints are not part of the primitive/array shape). -/
structure ToolDescriptor where
  name : String
  required : List String
  properties : List (String × FieldType)
deriving DecidableEq, Repr

/-- The full Operation Descriptor table returned by the
ListToolsRequestSchema handler (server.ts 427-996), in source order. -/
def toolDescriptors : List ToolDescriptor :=
  [⟨"get_nfts_for_owner", ["owner"],
    [("owner", .tStr), ("pageKey", .tStr), ("pageSize", .tNum),
     ("contractAddresses", .tArr), ("withMetadata", .tBool)]⟩,
   ⟨"get_nft_metadata", ["contractAddress", "tokenId"],
    [("contractAddress", .tStr), ("tokenId", .tStr), ("tokenType", .tStr),
     ("refreshCache", .tBool)]⟩,
   ⟨"get_nft_sales", [],
    [("contractAddress", .tStr), ("tokenId", .tStr), ("fromBlock", .tNum),
     ("toBlock", .tNum), ("order", .tStr), ("marketplace", .tStr),
     ("pageKey", .tStr), ("pageSize", .tNum)]⟩,
   ⟨"get_contracts_for_owner", ["owner"],
    [("owner", .tStr), ("pageKey", .tStr), ("pageSize", .tNum),
     ("includeFilters", .tArr), ("excludeFilters", .tArr)]⟩,
   ⟨"get_floor_price", ["contractAddress"], [("contractAddress", .tStr)]⟩,
   ⟨"get_owners_for_nft", ["contractAddress", "tokenId"],
    [("contractAddress", .tStr), ("tokenId", .tStr), ("pageKey", .tStr),
     ("pageSize", .tNum)]⟩,
   ⟨"get_nfts_for_contract", ["contractAddress"],
    [("contractAddress", .tStr), ("pageKey", .tStr), ("pageSize", .tNum),
     ("tokenUriTimeoutInMs", .tNum), ("withMetadata", .tBool)]⟩,
   ⟨"get_transfers_for_contract", ["contractAddress"],
    [("contractAddress", .tStr), ("pageKey", .tStr), ("fromBlock", .tNum),
     ("toBlock", .tNum), ("order", .tStr), ("tokenType", .tStr)]⟩,
   ⟨"get_transfers_for_owner", ["owner"],
    [("owner", .tStr), ("pageKey", .tStr), ("fromBlock", .tNum),
     ("toBlock", .tNum), ("order", .tStr), ("tokenType", .tStr),
     ("contractAddresses", .tArr)]⟩,
   ⟨"get_token_balances", ["address"],
    [("address", .tStr), ("tokenAddresses", .tArr)]⟩,
   ⟨"get_token_metadata", ["contractAddress"], [("contractAddress", .tStr)]⟩,
   ⟨"get_tokens_for_owner", ["owner"],
    [("owner", .tStr), ("pageKey", .tStr), ("pageSize", .tNum),
     ("contractAddresses", .tArr)]⟩,
   ⟨"get_asset_transfers", [],
    [("fromBlock", .tStr), ("toBlock", .tStr), ("fromAddress", .tStr),
     ("toAddress", .tStr), ("category", .tArr), ("contractAddresses", .tArr),
     ("maxCount", .tNum), ("excludeZeroValue", .tBool), ("pageKey", .tStr),
     ("withMetadata", .tBool)]⟩,
   ⟨"get_transaction_receipts", [],
    [("blockHash", .tStr), ("blockNumber", .tStr)]⟩,
   ⟨"get_block_number", [], []⟩,
   ⟨"get_block_with_transactions", [],
    [("blockNumber", .tStr), ("blockHash", .tStr)]⟩,
   ⟨"get_transaction", ["hash"], [("hash", .tStr)]⟩,
   ⟨"resolve_ens", ["name"], [("name", .tStr), ("blockTag", .tStr)]⟩,
   ⟨"lookup_address", ["address"], [("address", .tStr)]⟩,
   ⟨"estimate_gas_price", [], [("maxFeePerGas", .tBool)]⟩,
   ⟨"subscribe", ["type"],
    [("type", .tStr), ("address", .tStr), ("topics", .tArr)]⟩,
   ⟨"unsubscribe", ["subscriptionId"], [("subscriptionId", .tStr)]⟩]

/-- The operation names advertised by the list-tools reply. -/
def listedToolNames : List String := toolDescriptors.map ToolDescriptor.name

/-- Look up an Operation Descriptor by name. -/
def descriptorOf (n : String) : Option ToolDescriptor :=
  toolDescriptors.find? (fun d => d.name == n)

/-- The required-field set of an operation's descriptor. -/
def requiredOf (n : String) : List String :=
  match descriptorOf n with
  | some d => d.required
  | none => []

/-- The operation names that have a case in the dispatch switch
(server.ts 1011-1095), in source order. -/
def dispatchedNames : List String :=
  ["get_nfts_for_owner", "get_nft_metadata", "get_nft_sales",
   "get_contracts_for_owner", "get_floor_price", "get_owners_for_nft",
   "get_transfers_for_contract", "get_transfers_for_owner",
   "get_transaction_receipts", "get_token_metadata", "get_tokens_for_owner",
   "get_nfts_for_contract", "get_block_with_transactions", "get_transaction",
   "resolve_ens", "lookup_address", "estimate_gas_price", "subscribe",
   "unsubscribe"]

/-- The enum of the `type` property in the subscribe tool descriptor
(server.ts line 963). -/
def subscribeTypeEnum : List String :=
  ["newHeads", "logs", "pendingTransactions", "mined"]

/-- The per-handler validation failure message thrown by
validateAndCastParams for each dispatched operation. -/
def validationMsg (name : String) : String :=
  if name = "get_nfts_for_owner" then "Invalid NFTs for owner parameters"
  else if name = "get_nft_metadata" then "Invalid NFT metadata parameters"
  else if name = "get_nft_sales" then "Invalid NFT sales parameters"
  else if name = "get_contracts_for_owner" then "Invalid contracts for owner parameters"
  else if name = "get_floor_price" then "Invalid floor price parameters"
  else if name = "get_owners_for_nft" then "Invalid owners for NFT parameters"
  else if name = "get_transfers_for_contract" then "Invalid transfers for contract parameters"
  else if name = "get_transfers_for_owner" then "Invalid transfers for owner parameters"
  else if name = "get_transaction_receipts" then "Invalid transaction receipts parameters"
  else if name = "get_token_metadata" then "Invalid token metadata parameters"
  else if name = "get_tokens_for_owner" then "Invalid tokens for owner parameters"
  else if name = "get_nfts_for_contract" then "Invalid NFTs for contract parameters"
  else if name = "get_block_with_transactions" then "Invalid block with transactions parameters"
  else if name = "get_transaction" then "Invalid transaction parameters"
  else if name = "resolve_ens" then "Invalid ENS parameters"
  else if name = "lookup_address" then "Invalid lookup address parameters"
  else if name = "estimate_gas_price" then "Invalid gas price parameters"
  else if name = "subscribe" then "Invalid subscribe parameters"
  else if name = "unsubscribe" then "Invalid unsubscribe parameters"
  else ""

/-- The registry/backend synchronisation invariant: the handle tokens stored
in the instance registry are, as a multiset, exactly the live backend
subscriptions — each registered id corresponds to exactly one live backend
subscription and none is orphaned. -/
def Sync (st : ServerState) : Prop :=
  (st.instanceSubs.map Prod.snd).Perm (st.ws.live.map Prod.fst)

/-- The process state at startup: both registries empty, no live backend
subscription. -/
def initialState : ServerState := ⟨[], [], ⟨[], 0⟩⟩

/-- A backend oracle that resolves every call with null. -/
def bOk : Backend := fun _ => .ok .jnull

/-- A reachable state with one subscription: registry entry "i" bound to
backend handle 0, one live backend subscription 0 (the state produced by a
first subscribe of type newHeads with generated id "i" from startup). -/
def stC : ServerState := ⟨[("i", 0)], [], ⟨[(0, .block)], 1⟩⟩

theorem mapGet_cons (k' : String) (v' : Nat) (rest : List (String × Nat))
    (k : String) :
    mapGet ((k', v') :: rest) k = if k' = k then some v' else mapGet rest k := by
  by_cases h : k' = k
  · simp [mapGet, h]
  · simp [mapGet, h]

theorem mapGet_set_self (m : List (String × Nat)) (k : String) (v : Nat) :
    mapGet (mapSet m k v) k = some v := by
  induction m with
  | nil => simp [mapSet, mapGet]
  | cons p rest ih =>
    obtain ⟨k', v'⟩ := p
    by_cases h : k' = k
    · simp [mapSet, h, mapGet]
    · rw [mapSet, if_neg h, mapGet_cons, if_neg h]
      exact ih

theorem mapSet_of_get_none (m : List (String × Nat)) (k : String) (v : Nat)
    (h : mapGet m k = none) : mapSet m k v = m ++ [(k, v)] := by
  induction m with
  | nil => simp [mapSet]
  | cons p rest ih =>
    obtain ⟨k', v'⟩ := p
    rw [mapGet_cons] at h
    by_cases hk : k' = k
    · simp [hk] at h
    · rw [if_neg hk] at h
      simp [mapSet, hk, ih h]

theorem mapGet_mem_snd {m : List (String × Nat)} {k : String} {v : Nat}
    (h : mapGet m k = some v) : v ∈ m.map Prod.snd := by
  induction m with
  | nil => simp [mapGet] at h
  | cons p rest ih =>
    obtain ⟨k', v'⟩ := p
    rw [mapGet_cons] at h
    by_cases hk : k' = k
    · rw [if_pos hk] at h
      injection h with h
      simp [h]
    · rw [if_neg hk] at h
      simp [ih h]

theorem mapDelete_perm_erase {m : List (String × Nat)} {k : String} {v : Nat}
    (h : mapGet m k = some v) :
    ((mapDelete m k).map Prod.snd).Perm ((m.map Prod.snd).erase v) := by
  induction m with
  | nil => simp [mapGet] at h
  | cons p rest ih =>
    obtain ⟨k', v'⟩ := p
    rw [mapGet_cons] at h
    by_cases hk : k' = k
    · rw [if_pos hk] at h
      injection h with h
      subst h
      simp [mapDelete, hk]
    · rw [if_neg hk] at h
      have hmem : v ∈ rest.map Prod.snd := mapGet_mem_snd h
      by_cases hv : v' = v
      · subst hv
        simp only [mapDelete, if_neg hk, List.map_cons, List.erase_cons_head]
        exact ((ih h).cons v').trans (List.perm_cons_erase hmem).symm
      · simp only [mapDelete, if_neg hk, List.map_cons]
        rw [List.erase_cons_tail (by simpa using hv)]
        exact (ih h).cons v'

theorem eraseFirstTok_perm (l : List (Nat × WsTopic)) (tok : Nat)
    (h : tok ∈ l.map Prod.fst) :
    ((eraseFirstTok l tok).map Prod.fst).Perm ((l.map Prod.fst).erase tok) := by
  induction l with
  | nil => simp at h
  | cons p rest ih =>
    obtain ⟨t, w⟩ := p
    by_cases ht : t = tok
    · subst ht
      simp [eraseFirstTok]
    · simp only [List.map_cons, List.mem_cons] at h
      rcases h with h | h
      · exact absurd h.symm ht
      · simp only [eraseFirstTok, if_neg ht, List.map_cons]
        rw [List.erase_cons_tail (by simpa using ht)]
        exact (ih h).cons t

/-- C3 counterexample: from the reachable one-subscription state stC, a
subscribe whose freshly generated random id "i" equals the already
registered id silently replaces the stored handle (the registry still has a
single entry, now bound to the new handle 1) while the backend now has two
live subscriptions — handle 0 is orphaned and the registry has diverged
from the backend, so the claimed invariant fails. -/
theorem c3_collision_breaks_sync :
    Sync stC
    ∧ (handleSubscribe "i" [("type", .jstr "newHeads")] stC).2.instanceSubs
        = [("i", 1)]
    ∧ (handleSubscribe "i" [("type", .jstr "newHeads")] stC).2.ws.live
        = [(1, .block), (0, .block)]
    ∧ (0, WsTopic.block) ∈
        (handleSubscribe "i" [("type", .jstr "newHeads")] stC).2.ws.live
    ∧ ¬ Sync (handleSubscribe "i" [("type", .jstr "newHeads")] stC).2 := by
  refine ⟨List.Perm.refl [0], rfl, rfl, List.Mem.tail _ (List.Mem.head _), ?_⟩
  intro h
  exact absurd (show List.Perm [1] [1, 0] from h) (by decide)

/-- C3 amended: the synchronisation invariant between the instance registry
and the backend subscription state holds at startup and is preserved by
handleSubscribe PROVIDED the freshly generated id is not already registered,
and by handleUnsubscribe unconditionally: every registry insert is paired
with exactly one backend subscription creation and every removal with the
cancellation of exactly the stored handle.  (Without the freshness proviso
the invariant fails: see the counterexample.) -/
theorem c3_registry_backend_sync_amended :
    Sync initialState
    ∧ (∀ (genId : String) (args : ArgBag) (st : ServerState)
         (r : Except HandlerErr JValue) (st' : ServerState),
         Sync st → mapGet st.instanceSubs genId = none →
         handleSubscribe genId args st = (r, st') → Sync st')
    ∧ (∀ (args : ArgBag) (st : ServerState)
         (r : Except HandlerErr JValue) (st' : ServerState),
         Sync st → handleUnsubscribe args st = (r, st') → Sync st') := by
  refine ⟨List.Perm.refl [], ?_, ?_⟩
  · intro genId args st r st' hsync hfresh heq
    by_cases hval : isValidSubscribeParams args = true
    · rw [handleSubscribe, if_pos hval] at heq
      cases htop : subTopicOf args (asStr (lookupField args "type")) with
      | none =>
          rw [htop] at heq
          injection heq with h1 h2
          subst h2
          exact hsync
      | some topic =>
          rw [htop] at heq
          injection heq with h1 h2
          subst h2
          unfold Sync
          simp only [WsState.on, List.map_cons]
          rw [mapSet_of_get_none _ _ _ hfresh, List.map_append, List.map_cons]
          exact (List.perm_append_singleton _ _).trans (hsync.cons _)
    · rw [handleSubscribe, if_neg hval] at heq
      injection heq with h1 h2
      subst h2
      exact hsync
  · intro args st r st' hsync heq
    by_cases hval : isValidUnsubscribeParams args = true
    · rw [handleUnsubscribe, if_pos hval] at heq
      cases hget : mapGet st.instanceSubs (asStr (lookupField args "subscriptionId")) with
      | none =>
          rw [hget] at heq
          injection heq with h1 h2
          subst h2
          exact hsync
      | some tok =>
          rw [hget] at heq
          injection heq with h1 h2
          subst h2
          unfold Sync
          have hmem : tok ∈ st.instanceSubs.map Prod.snd := mapGet_mem_snd hget
          have hmem' : tok ∈ st.ws.live.map Prod.fst := hsync.mem_iff.mp hmem
          exact (mapDelete_perm_erase hget).trans
            ((hsync.erase tok).trans (eraseFirstTok_perm _ _ hmem').symm)
    · rw [handleUnsubscribe, if_neg hval] at heq
      injection heq with h1 h2
      subst h2
      exact hsync

/-- Witness for the amended C3 theorem: a concrete subscribe with a fresh id
from the startup state, followed by an unsubscribe of that id, both
preserving the invariant. -/
theorem c3_registry_backend_sync_witness :
    Sync (handleSubscribe "a1" [("type", .jstr "newHeads")] initialState).2
    ∧ Sync (handleUnsubscribe [("subscriptionId", .jstr "a1")]
        (handleSubscribe "a1" [("type", .jstr "newHeads")] initialState).2).2 := by
  have h1 := c3_registry_backend_sync_amended.2.1 "a1"
    [("type", .jstr "newHeads")] initialState
    (handleSubscribe "a1" [("type", .jstr "newHeads")] initialState).1
    (handleSubscribe "a1" [("type", .jstr "newHeads")] initialState).2
    c3_registry_backend_sync_amended.1 rfl rfl
  refine ⟨h1, ?_⟩
  exact c3_registry_backend_sync_amended.2.2 [("subscriptionId", .jstr "a1")]
    (handleSubscribe "a1" [("type", .jstr "newHeads")] initialState).2
    (handleUnsubscribe [("subscriptionId", .jstr "a1")]
      (handleSubscribe "a1" [("type", .jstr "newHeads")] initialState).2).1
    (handleUnsubscribe [("subscriptionId", .jstr "a1")]
      (handleSubscribe "a1" [("type", .jstr "newHeads")] initialState).2).2
    h1 rfl

theorem handleUnsubscribe_found (st : ServerState) (i : String) (tok : Nat)
    (h : mapGet st.instanceSubs i = some tok) :
    handleUnsubscribe [("subscriptionId", .jstr i)] st
      = (.ok (.jobj [("success", .jbool true)]),
         { st with ws := st.ws.unsubscribe tok,
                   instanceSubs := mapDelete st.instanceSubs i }) := by
  have hv : isValidUnsubscribeParams [("subscriptionId", .jstr i)] = true := rfl
  have ha : asStr (lookupField [("subscriptionId", JValue.jstr i)] "subscriptionId") = i := rfl
  rw [handleUnsubscribe, if_pos hv, ha, h]

theorem handleUnsubscribe_missing (st : ServerState) (i : String)
    (h : mapGet st.instanceSubs i = none) :
    handleUnsubscribe [("subscriptionId", .jstr i)] st
      = (.error (.mcp ⟨.invalidParams, "Subscription not found: " ++ i⟩), st) := by
  have hv : isValidUnsubscribeParams [("subscriptionId", .jstr i)] = true := rfl
  have ha : asStr (lookupField [("subscriptionId", JValue.jstr i)] "subscriptionId") = i := rfl
  rw [handleUnsubscribe, if_pos hv, ha, h]

/-- C6: unsubscribe succeeds — invoking the stored cancel action, removing
the registry entry and returning a success acknowledgement — exactly when
the supplied id is in the registry, and otherwise fails with
ErrorCode.InvalidParams; and the concrete scenario: a subscribe of kind
"logs" (the spec's log-events) with address "0xabc" and topics ["0x1"]
returns the generated id, a first unsubscribe with that id succeeds, a
second unsubscribe with the same id fails with ErrorCode.InvalidParams
(never-issued ids are the registry-miss branch). -/
theorem c6_unsubscribe_iff_registered :
    (∀ (st : ServerState) (i : String) (tok : Nat),
       mapGet st.instanceSubs i = some tok →
       handleUnsubscribe [("subscriptionId", .jstr i)] st
         = (.ok (.jobj [("success", .jbool true)]),
            { st with ws := st.ws.unsubscribe tok,
                      instanceSubs := mapDelete st.instanceSubs i }))
    ∧ (∀ (st : ServerState) (i : String),
       mapGet st.instanceSubs i = none →
       handleUnsubscribe [("subscriptionId", .jstr i)] st
         = (.error (.mcp ⟨.invalidParams, "Subscription not found: " ++ i⟩), st))
    ∧ (∀ (genId : String),
       (handleSubscribe genId
          [("type", .jstr "logs"), ("address", .jstr "0xabc"),
           ("topics", .jarr [.jstr "0x1"])] initialState).1
         = .ok (.jobj [("subscriptionId", .jstr genId)])
       ∧ handleUnsubscribe [("subscriptionId", .jstr genId)]
           (handleSubscribe genId
             [("type", .jstr "logs"), ("address", .jstr "0xabc"),
              ("topics", .jarr [.jstr "0x1"])] initialState).2
         = (.ok (.jobj [("success", .jbool true)]), ⟨[], [], ⟨[], 1⟩⟩)
       ∧ (handleUnsubscribe [("subscriptionId", .jstr genId)]
            (⟨[], [], ⟨[], 1⟩⟩ : ServerState)).1
         = .error (.mcp ⟨.invalidParams, "Subscription not found: " ++ genId⟩)) := by
  refine ⟨handleUnsubscribe_found, handleUnsubscribe_missing, ?_⟩
  intro genId
  refine ⟨rfl, ?_, ?_⟩
  · have h1 : mapGet ([(genId, 0)] : List (String × Nat)) genId = some 0 := by
      rw [mapGet_cons, if_pos rfl]
    have h2 := handleUnsubscribe_found
      ⟨[(genId, 0)], [],
        ⟨[(0, .filtered (some ["0xabc"]) (some (.jarr [.jstr "0x1"])))], 1⟩⟩
      genId 0 h1
    rw [show (handleSubscribe genId
          [("type", .jstr "logs"), ("address", .jstr "0xabc"),
           ("topics", .jarr [.jstr "0x1"])] initialState).2
        = ⟨[(genId, 0)], [],
           ⟨[(0, .filtered (some ["0xabc"]) (some (.jarr [.jstr "0x1"])))], 1⟩⟩
      from rfl, h2]
    simp [mapDelete, WsState.unsubscribe, eraseFirstTok]
  · rw [handleUnsubscribe_missing ⟨[], [], ⟨[], 1⟩⟩ genId rfl]

/-- Witness for C6: the registered / unregistered branches applied at the
concrete one-subscription state stC and at the startup state. -/
theorem c6_unsubscribe_iff_registered_witness :
    handleUnsubscribe [("subscriptionId", .jstr "i")] stC
      = (.ok (.jobj [("success", .jbool true)]),
         { stC with ws := stC.ws.unsubscribe 0,
                    instanceSubs := mapDelete stC.instanceSubs "i" })
    ∧ handleUnsubscribe [("subscriptionId", .jstr "never")] initialState
      = (.error (.mcp ⟨.invalidParams, "Subscription not found: never"⟩),
         initialState) :=
  ⟨c6_unsubscribe_iff_registered.1 stC "i" 0 rfl,
   c6_unsubscribe_iff_registered.2.1 initialState "never" rfl⟩

/-- C10: any subscribe type outside the three handled cases — including
"mined", which the advertised subscribe schema lists as valid — makes
handleSubscribe throw before the generated id is inserted: the state
(hence the registry) is exactly the state before the call and an error,
not an id, is returned. -/
theorem c10_unknown_subscription_type_atomic :
    "mined" ∈ subscribeTypeEnum
    ∧ "mined" ∉ (["newHeads", "logs", "pendingTransactions"] : List String)
    ∧ (∀ (genId : String) (args : ArgBag) (st : ServerState) (t : String),
        lookupField args "type" = some (.jstr t) →
        t ∉ (["newHeads", "logs", "pendingTransactions"] : List String) →
        (handleSubscribe genId args st).2 = st
        ∧ ∃ e, (handleSubscribe genId args st).1 = .error (.mcp e)) := by
  refine ⟨by decide, by decide, ?_⟩
  intro genId args st t hlook ht
  simp only [List.mem_cons, List.not_mem_nil, or_false, not_or] at ht
  obtain ⟨ht1, ht2, ht3⟩ := ht
  by_cases hval : isValidSubscribeParams args = true
  · have hA : asStr (lookupField args "type") = t := by rw [hlook]; rfl
    have hnone : subTopicOf args t = none := by
      rw [subTopicOf, if_neg ht1, if_neg ht2, if_neg ht3]
    rw [handleSubscribe, if_pos hval, hA, hnone]
    exact ⟨rfl, _, rfl⟩
  · rw [handleSubscribe, if_neg hval]
    exact ⟨rfl, _, rfl⟩

/-- Witness for C10: subscribing with the advertised type "mined" from the
startup state leaves the state untouched and returns an error. -/
theorem c10_unknown_subscription_type_witness :
    "mined" ∉ (["newHeads", "logs", "pendingTransactions"] : List String)
    ∧ ((handleSubscribe "g" [("type", .jstr "mined")] initialState).2 = initialState
       ∧ ∃ e, (handleSubscribe "g" [("type", .jstr "mined")] initialState).1
           = .error (.mcp e)) :=
  ⟨by decide,
   c10_unknown_subscription_type_atomic.2.2 "g" [("type", .jstr "mined")]
     initialState "mined" rfl (by decide)⟩

/-- C2 is a code bug: the SIGINT teardown (server.ts 405-418) iterates the
module-level activeSubscriptions map of line 46, which no code ever writes,
while handleSubscribe stores handles in the instance map
this.activeSubscriptions (line 1393).  Concretely: after a subscribe of
type "newHeads" the registry the subscribe/unsubscribe operations use holds
id "abc" with backend handle 0, the backend subscription 0 is live, and the
SIGINT cleanup cancels nothing — the handle is still live at process exit,
so a subscription registered via subscribe is left uncancelled. -/
theorem c2_sigint_leaves_subscription_live :
    (handleSubscribe "abc" [("type", .jstr "newHeads")] initialState).2
      = ⟨[("abc", 0)], [], ⟨[(0, .block)], 1⟩⟩
    ∧ mapGet (handleSubscribe "abc" [("type", .jstr "newHeads")]
        initialState).2.instanceSubs "abc" = some 0
    ∧ sigintCleanup (handleSubscribe "abc" [("type", .jstr "newHeads")]
        initialState).2
      = ⟨[("abc", 0)], [], ⟨[(0, .block)], 1⟩⟩
    ∧ (0, WsTopic.block) ∈ (sigintCleanup (handleSubscribe "abc"
        [("type", .jstr "newHeads")] initialState).2).ws.live :=
  ⟨rfl, rfl, rfl, List.Mem.head _⟩

/-- C1 is a code bug: the ListTools reply advertises get_token_balances,
get_asset_transfers and get_block_number (and validators for the first two
exist in the source), but the dispatch switch has no case for any of them:
invoking them with well-formed arguments falls to the default branch and
fails with the unknown-name error ("Unknown tool: ..."), surfaced by the
top-level catch as internalError. -/
theorem c1_advertised_ops_hit_unknown_tool :
    ("get_token_balances" ∈ listedToolNames
     ∧ "get_asset_transfers" ∈ listedToolNames
     ∧ "get_block_number" ∈ listedToolNames)
    ∧ isValidGetTokenBalancesParams [("address", .jstr "0xabc")] = true
    ∧ callTool bOk "g" "get_token_balances"
        (some [("address", .jstr "0xabc")]) initialState
      = (.error ⟨.internalError, "Tool error: Unknown tool: get_token_balances"⟩,
         initialState, [])
    ∧ callTool bOk "g" "get_asset_transfers" (some []) initialState
      = (.error ⟨.internalError, "Tool error: Unknown tool: get_asset_transfers"⟩,
         initialState, [])
    ∧ callTool bOk "g" "get_block_number" (some []) initialState
      = (.error ⟨.internalError, "Tool error: Unknown tool: get_block_number"⟩,
         initialState, []) :=
  ⟨⟨by decide, by decide, by decide⟩, rfl, rfl, rfl, rfl⟩

/-- C5 counterexample: the unknown-name failure is NOT a class distinct from
parameter-validation failures — the default branch throws the very same
ErrorCode.InvalidParams that validateAndCastParams throws, and after the
top-level catch both surface as internalError; only the message string
differs. -/
theorem c5_unknown_tool_error_code_shared :
    (dispatchTry bOk "g" "no_such_tool" (some []) initialState).1
      = .error (.mcp ⟨.invalidParams, "Unknown tool: no_such_tool"⟩)
    ∧ (dispatchTry bOk "g" "get_transaction" (some []) initialState).1
      = .error (.mcp ⟨.invalidParams, "Invalid transaction parameters"⟩)
    ∧ (callTool bOk "g" "no_such_tool" (some []) initialState).1
      = .error ⟨.internalError, "Tool error: Unknown tool: no_such_tool"⟩
    ∧ (callTool bOk "g" "get_nft_metadata" (some []) initialState).1
      = .error ⟨.internalError, "Tool error: Invalid NFT metadata parameters"⟩ :=
  ⟨rfl, rfl, rfl, rfl⟩

/-- C5 amended: invoking any operation name without a dispatch case fails
with an error of code ErrorCode.InvalidParams carrying the message
"Unknown tool: " followed by the name — the same error code used for
parameter-validation failures, distinguished only by its message — and the
top-level catch surfaces it as internalError with the "Tool error: "
prefix. -/
theorem c5_unknown_tool_amended (name : String) (h : name ∉ dispatchedNames)
    (backend : Backend) (genId : String) (args : ArgBag) (st : ServerState) :
    dispatchTry backend genId name (some args) st
      = (.error (.mcp ⟨.invalidParams, "Unknown tool: " ++ name⟩), st, [])
    ∧ callTool backend genId name (some args) st
      = (.error ⟨.internalError, "Tool error: " ++ ("Unknown tool: " ++ name)⟩,
         st, []) := by
  simp only [dispatchedNames, List.mem_cons, List.not_mem_nil, or_false,
    not_or] at h
  obtain ⟨h1, h2, h3, h4, h5, h6, h7, h8, h9, h10, h11, h12, h13, h14, h15,
    h16, h17, h18, h19⟩ := h
  have hd : dispatchTry backend genId name (some args) st
      = (.error (.mcp ⟨.invalidParams, "Unknown tool: " ++ name⟩), st, []) := by
    show dispatchSwitch backend genId name args st = _
    rw [dispatchSwitch, if_neg h1, if_neg h2, if_neg h3, if_neg h4, if_neg h5,
      if_neg h6, if_neg h7, if_neg h8, if_neg h9, if_neg h10, if_neg h11,
      if_neg h12, if_neg h13, if_neg h14, if_neg h15, if_neg h16, if_neg h17,
      if_neg h18, if_neg h19]
  refine ⟨hd, ?_⟩
  unfold callTool
  rw [hd]
  rfl

/-- Witness for the amended C5 theorem at the unknown name "frobnicate". -/
theorem c5_unknown_tool_witness :
    "frobnicate" ∉ dispatchedNames
    ∧ (dispatchTry bOk "g" "frobnicate" (some []) initialState
         = (.error (.mcp ⟨.invalidParams, "Unknown tool: " ++ "frobnicate"⟩),
            initialState, [])
       ∧ callTool bOk "g" "frobnicate" (some []) initialState
         = (.error ⟨.internalError,
              "Tool error: " ++ ("Unknown tool: " ++ "frobnicate")⟩,
            initialState, [])) :=
  ⟨by decide, c5_unknown_tool_amended "frobnicate" (by decide) bOk "g" [] initialState⟩

/-- C9: an invoke-operation request with no argument bag at all fails inside
the try block with ErrorCode.InvalidParams and the message
"Missing arguments", for every operation name, with the state untouched and
no backend call made — the guard runs before the name switch; the top-level
catch then surfaces it as internalError "Tool error: Missing arguments". -/
theorem c9_missing_arguments_guard (backend : Backend) (genId name : String)
    (st : ServerState) :
    dispatchTry backend genId name none st
      = (.error (.mcp ⟨.invalidParams, "Missing arguments"⟩), st, [])
    ∧ callTool backend genId name none st
      = (.error ⟨.internalError, "Tool error: Missing arguments"⟩, st, []) :=
  ⟨rfl, rfl⟩

/-- The trace of a handler's backend interaction records the call whether
the backend resolves or rejects. -/
theorem runBackend_trace (backend : Backend) (call : BackendCall) :
    (runBackend backend call).2 = [call] := by
  unfold runBackend
  cases backend call <;> rfl

/-- C7: every error leaving the CallTool handler is a classified McpError of
the shape internalError with message "Tool error: " ++ m (never a raw
unhandled fault), and concretely a backend rejection of get NFT metadata
(contractAddress "0xabc", tokenId "1") with message m surfaces as exactly
that error, carrying the backend's message. -/
theorem c7_backend_rejection_classified :
    (∀ (backend : Backend) (genId name : String) (args? : Option ArgBag)
       (st : ServerState) (e : McpError) (st' : ServerState)
       (tr : List BackendCall),
       callTool backend genId name args? st = (.error e, st', tr) →
       ∃ m, e = ⟨.internalError, "Tool error: " ++ m⟩)
    ∧ (∀ (m : String) (st : ServerState) (genId : String),
       callTool (fun _ => .error m) genId "get_nft_metadata"
         (some [("contractAddress", .jstr "0xabc"), ("tokenId", .jstr "1")]) st
         = (.error ⟨.internalError, "Tool error: " ++ m⟩, st,
            [.nftGetNftMetadata "0xabc" "1"])) := by
  constructor
  · intro backend genId name args? st e st' tr h
    unfold callTool at h
    cases hd : dispatchTry backend genId name args? st with
    | mk r p =>
      rw [hd] at h
      cases r with
      | ok v => simp at h
      | error e' =>
          refine ⟨e'.message, ?_⟩
          injection h with h1 h2
          injection h1 with h1
          exact h1.symm
  · intro m st genId
    rfl

/-- Witness for C7: a concrete rejecting backend with message "boom". -/
theorem c7_backend_rejection_classified_witness :
    (∃ m, (⟨.internalError, "Tool error: boom"⟩ : McpError)
        = ⟨.internalError, "Tool error: " ++ m⟩)
    ∧ callTool (fun _ => .error "boom") "g" "get_nft_metadata"
        (some [("contractAddress", .jstr "0xabc"), ("tokenId", .jstr "1")])
        initialState
      = (.error ⟨.internalError, "Tool error: boom"⟩, initialState,
         [.nftGetNftMetadata "0xabc" "1"]) :=
  ⟨c7_backend_rejection_classified.1 (fun _ => .error "boom") "g"
     "get_nft_metadata"
     (some [("contractAddress", .jstr "0xabc"), ("tokenId", .jstr "1")])
     initialState ⟨.internalError, "Tool error: boom"⟩ initialState
     [.nftGetNftMetadata "0xabc" "1"] rfl,
   c7_backend_rejection_classified.2 "boom" initialState "g"⟩

/-- C8 counterexample: the validated optional fields are NOT all passed on
to the backend call.  resolve_ens with blockTag produces exactly the same
backend call — and the same overall outcome — as without it (the call
resolveName("a.eth") carries no blockTag); get_contracts_for_owner drops
pageKey/pageSize/includeFilters/excludeFilters (the call is
getContractsForOwner("0xo") alone); estimate_gas_price drops maxFeePerGas
(the call is getGasPrice() with no argument). -/
theorem c8_optional_fields_dropped :
    dispatchTry bOk "g" "resolve_ens"
        (some [("name", .jstr "a.eth"), ("blockTag", .jstr "0x10")]) initialState
      = dispatchTry bOk "g" "resolve_ens"
        (some [("name", .jstr "a.eth")]) initialState
    ∧ (dispatchTry bOk "g" "resolve_ens"
        (some [("name", .jstr "a.eth"), ("blockTag", .jstr "0x10")])
        initialState).2.2
      = [.coreResolveName "a.eth"]
    ∧ dispatchTry bOk "g" "get_contracts_for_owner"
        (some [("owner", .jstr "0xo"), ("pageKey", .jstr "pk"),
               ("pageSize", .jnum 5), ("includeFilters", .jarr [.jstr "spam"]),
               ("excludeFilters", .jarr [.jstr "airdrops"])]) initialState
      = dispatchTry bOk "g" "get_contracts_for_owner"
        (some [("owner", .jstr "0xo")]) initialState
    ∧ (dispatchTry bOk "g" "get_contracts_for_owner"
        (some [("owner", .jstr "0xo"), ("pageKey", .jstr "pk"),
               ("pageSize", .jnum 5), ("includeFilters", .jarr [.jstr "spam"]),
               ("excludeFilters", .jarr [.jstr "airdrops"])]) initialState).2.2
      = [.nftGetContractsForOwner "0xo"]
    ∧ dispatchTry bOk "g" "estimate_gas_price"
        (some [("maxFeePerGas", .jbool true)]) initialState
      = dispatchTry bOk "g" "estimate_gas_price" (some []) initialState
    ∧ (dispatchTry bOk "g" "estimate_gas_price"
        (some [("maxFeePerGas", .jbool true)]) initialState).2.2
      = [.coreGetGasPrice] :=
  ⟨rfl, rfl, rfl, rfl, rfl, rfl⟩

/-- C8 amended: the Forward step is a fixed per-operation mapping, but for
several operations it passes only a subset of the validated fields to the
backend: resolve_ens forwards only name (blockTag is dropped),
get_contracts_for_owner forwards only owner (pageKey, pageSize,
includeFilters and excludeFilters are dropped), and estimate_gas_price
calls getGasPrice with no arguments (maxFeePerGas is dropped) — for any
backend and any values of those fields. -/
theorem c8_forward_fixed_mapping_amended (backend : Backend) (genId : String)
    (st : ServerState) (n bt owner pk : String) (ps : Int)
    (inc exc : List JValue) (mf : Bool) :
    (dispatchTry backend genId "resolve_ens"
        (some [("name", .jstr n), ("blockTag", .jstr bt)]) st).2.2
      = [.coreResolveName n]
    ∧ (dispatchTry backend genId "get_contracts_for_owner"
        (some [("owner", .jstr owner), ("pageKey", .jstr pk),
               ("pageSize", .jnum ps), ("includeFilters", .jarr inc),
               ("excludeFilters", .jarr exc)]) st).2.2
      = [.nftGetContractsForOwner owner]
    ∧ (dispatchTry backend genId "estimate_gas_price"
        (some [("maxFeePerGas", .jbool mf)]) st).2.2
      = [.coreGetGasPrice] :=
  ⟨runBackend_trace backend _, runBackend_trace backend _,
   runBackend_trace backend _⟩

/-- C4 counterexample: the resolve_ens descriptor declares the optional
field blockTag as string, yet invoking resolve_ens with blockTag present as
a number (a type other than the declared shape) does NOT fail with a
parameter error — the validator also accepts numbers, so the call proceeds
to the backend and succeeds. -/
theorem c4_optional_type_not_enforced :
    descriptorOf "resolve_ens"
      = some ⟨"resolve_ens", ["name"], [("name", .tStr), ("blockTag", .tStr)]⟩
    ∧ isValidResolveEnsParams [("name", .jstr "a.eth"), ("blockTag", .jnum 5)]
        = true
    ∧ callTool bOk "g" "resolve_ens"
        (some [("name", .jstr "a.eth"), ("blockTag", .jnum 5)]) initialState
      = (.ok .jnull, initialState, [.coreResolveName "a.eth"]) :=
  ⟨by decide, rfl, rfl⟩

/-- C4 amended: for every operation name with a dispatch case, invoking it
with an argument bag that omits any one field of its descriptor's required
list fails — before any backend call and with the state unchanged — with
ErrorCode.InvalidParams carrying that operation's human-readable validation
message; type checking of present optional fields follows the
per-operation validator, which accepts every value of the declared shape
but is broader for some fields (resolve_ens's blockTag, declared string,
also accepts numbers). -/
theorem c4_required_field_validation_amended :
    (∀ (name : String), name ∈ dispatchedNames →
     ∀ (r : String), r ∈ requiredOf name →
     ∀ (bag : ArgBag) (backend : Backend) (genId : String) (st : ServerState),
       lookupField bag r = none →
       dispatchTry backend genId name (some bag) st
         = (.error (.mcp ⟨.invalidParams, validationMsg name⟩), st, []))
    ∧ isValidResolveEnsParams [("name", .jstr "a.eth"), ("blockTag", .jnum 5)]
        = true := by
  refine ⟨?_, rfl⟩
  intro name hname r hr bag backend genId st hlook
  simp only [dispatchedNames, List.mem_cons, List.not_mem_nil,
    or_false] at hname
  rcases hname with rfl | rfl | rfl | rfl | rfl | rfl | rfl | rfl | rfl |
    rfl | rfl | rfl | rfl | rfl | rfl | rfl | rfl | rfl | rfl
  · rw [show requiredOf "get_nfts_for_owner" = ["owner"] from rfl] at hr
    simp only [List.mem_singleton] at hr
    subst hr
    have hv : isValidGetNftsForOwnerParams bag = false := by
      simp [isValidGetNftsForOwnerParams, hlook, isStr]
    simp [dispatchTry, dispatchSwitch, stateless, handleGetNftsForOwner, hv,
      invalidP, validationMsg]
  · rw [show requiredOf "get_nft_metadata" = ["contractAddress", "tokenId"]
      from rfl] at hr
    have hv : isValidGetNftMetadataParams bag = false := by
      simp only [List.mem_cons, List.mem_singleton, List.not_mem_nil,
        or_false] at hr
      rcases hr with rfl | rfl <;>
        simp [isValidGetNftMetadataParams, hlook, isStr]
    simp [dispatchTry, dispatchSwitch, stateless, handleGetNftMetadata, hv,
      invalidP, validationMsg]
  · rw [show requiredOf "get_nft_sales" = [] from rfl] at hr
    simp at hr
  · rw [show requiredOf "get_contracts_for_owner" = ["owner"] from rfl] at hr
    simp only [List.mem_singleton] at hr
    subst hr
    have hv : isValidGetContractsForOwnerParams bag = false := by
      simp [isValidGetContractsForOwnerParams, hlook, isStr]
    simp [dispatchTry, dispatchSwitch, stateless, handleGetContractsForOwner,
      hv, invalidP, validationMsg]
  · rw [show requiredOf "get_floor_price" = ["contractAddress"] from rfl] at hr
    simp only [List.mem_singleton] at hr
    subst hr
    have hv : isValidGetFloorPriceParams bag = false := by
      simp [isValidGetFloorPriceParams, hlook, isStr]
    simp [dispatchTry, dispatchSwitch, stateless, handleGetFloorPrice, hv,
      invalidP, validationMsg]
  · rw [show requiredOf "get_owners_for_nft" = ["contractAddress", "tokenId"]
      from rfl] at hr
    have hv : isValidGetOwnersForNftParams bag = false := by
      simp only [List.mem_cons, List.mem_singleton, List.not_mem_nil,
        or_false] at hr
      rcases hr with rfl | rfl <;>
        simp [isValidGetOwnersForNftParams, hlook, isStr]
    simp [dispatchTry, dispatchSwitch, stateless, handleGetOwnersForNft, hv,
      invalidP, validationMsg]
  · rw [show requiredOf "get_transfers_for_contract" = ["contractAddress"]
      from rfl] at hr
    simp only [List.mem_singleton] at hr
    subst hr
    have hv : isValidGetTransfersForContractParams bag = false := by
      simp [isValidGetTransfersForContractParams, hlook, isStr]
    simp [dispatchTry, dispatchSwitch, stateless,
      handleGetTransfersForContract, hv, invalidP, validationMsg]
  · rw [show requiredOf "get_transfers_for_owner" = ["owner"] from rfl] at hr
    simp only [List.mem_singleton] at hr
    subst hr
    have hv : isValidGetTransfersForOwnerParams bag = false := by
      simp [isValidGetTransfersForOwnerParams, hlook, isStr]
    simp [dispatchTry, dispatchSwitch, stateless, handleGetTransfersForOwner,
      hv, invalidP, validationMsg]
  · rw [show requiredOf "get_transaction_receipts" = [] from rfl] at hr
    simp at hr
  · rw [show requiredOf "get_token_metadata" = ["contractAddress"]
      from rfl] at hr
    simp only [List.mem_singleton] at hr
    subst hr
    have hv : isValidGetTokenMetadataParams bag = false := by
      simp [isValidGetTokenMetadataParams, hlook, isStr]
    simp [dispatchTry, dispatchSwitch, stateless, handleGetTokenMetadata, hv,
      invalidP, validationMsg]
  · rw [show requiredOf "get_tokens_for_owner" = ["owner"] from rfl] at hr
    simp only [List.mem_singleton] at hr
    subst hr
    have hv : isValidGetTokensForOwnerParams bag = false := by
      simp [isValidGetTokensForOwnerParams, hlook, isStr]
    simp [dispatchTry, dispatchSwitch, stateless, handleGetTokensForOwner, hv,
      invalidP, validationMsg]
  · rw [show requiredOf "get_nfts_for_contract" = ["contractAddress"]
      from rfl] at hr
    simp only [List.mem_singleton] at hr
    subst hr
    have hv : isValidGetNftsForContractParams bag = false := by
      simp [isValidGetNftsForContractParams, hlook, isStr]
    simp [dispatchTry, dispatchSwitch, stateless, handleGetNftsForContract,
      hv, invalidP, validationMsg]
  · rw [show requiredOf "get_block_with_transactions" = [] from rfl] at hr
    simp at hr
  · rw [show requiredOf "get_transaction" = ["hash"] from rfl] at hr
    simp only [List.mem_singleton] at hr
    subst hr
    have hv : isValidGetTransactionParams bag = false := by
      simp [isValidGetTransactionParams, hlook, isStr]
    simp [dispatchTry, dispatchSwitch, stateless, handleGetTransaction, hv,
      invalidP, validationMsg]
  · rw [show requiredOf "resolve_ens" = ["name"] from rfl] at hr
    simp only [List.mem_singleton] at hr
    subst hr
    have hv : isValidResolveEnsParams bag = false := by
      simp [isValidResolveEnsParams, hlook, isStr]
    simp [dispatchTry, dispatchSwitch, stateless, handleResolveEns, hv,
      invalidP, validationMsg]
  · rw [show requiredOf "lookup_address" = ["address"] from rfl] at hr
    simp only [List.mem_singleton] at hr
    subst hr
    have hv : isValidLookupAddressParams bag = false := by
      simp [isValidLookupAddressParams, hlook, isStr]
    simp [dispatchTry, dispatchSwitch, stateless, handleLookupAddress, hv,
      invalidP, validationMsg]
  · rw [show requiredOf "estimate_gas_price" = [] from rfl] at hr
    simp at hr
  · rw [show requiredOf "subscribe" = ["type"] from rfl] at hr
    simp only [List.mem_singleton] at hr
    subst hr
    have hv : isValidSubscribeParams bag = false := by
      simp [isValidSubscribeParams, hlook, isStr]
    simp [dispatchTry, dispatchSwitch, handleSubscribe, hv, validationMsg]
  · rw [show requiredOf "unsubscribe" = ["subscriptionId"] from rfl] at hr
    simp only [List.mem_singleton] at hr
    subst hr
    have hv : isValidUnsubscribeParams bag = false := by
      simp [isValidUnsubscribeParams, hlook, isStr]
    simp [dispatchTry, dispatchSwitch, handleUnsubscribe, hv, validationMsg]

/-- Witness for the amended C4 theorem: invoking get_floor_price with an
empty bag (the required contractAddress omitted). -/
theorem c4_required_field_validation_witness :
    "get_floor_price" ∈ dispatchedNames
    ∧ "contractAddress" ∈ requiredOf "get_floor_price"
    ∧ dispatchTry bOk "g" "get_floor_price" (some []) initialState
      = (.error (.mcp ⟨.invalidParams, validationMsg "get_floor_price"⟩),
         initialState, []) :=
  ⟨by decide, by decide,
   c4_required_field_validation_amended.1 "get_floor_price" (by decide)
     "contractAddress" (by decide) [] bOk "g" initialState rfl⟩

end AlchemyMcp
